import Mathlib

/-!
Verification of the workspace bootstrap subsystem of ciel-rs
(`src/common.rs`), shallowly embedded in Lean 4.

Paths are modelled as lists of components (`List String`); file contents
as byte lists (`List Nat`); fallible operations return `Except String`
mirroring `anyhow::Result`, with the `anyhow!` message strings kept
verbatim.  External collaborators (the OS `prctl` call, the interactive
selector, the tar/xz decoder) are modelled as explicit inputs, so every
embedded function is a pure, executable Lean function.
-/

namespace Ciel

/-- Embeds `CURRENT_CIEL_VERSION: usize = 3` -/
def CURRENT_CIEL_VERSION : Nat := 3

/-- Embeds `CURRENT_CIEL_VERSION_STR: &str = "3"` -/
def CURRENT_CIEL_VERSION_STR : String := "3"

/-- Embeds `CIEL_DIST_DIR: &str = ".ciel/container/dist"`, as path components. -/
def CIEL_DIST_DIR : List String := [".ciel", "container", "dist"]

/-- Embeds `CIEL_INST_DIR: &str = ".ciel/container/instances"`, as path components. -/
def CIEL_INST_DIR : List String := [".ciel", "container", "instances"]

/-- Embeds `CIEL_DATA_DIR: &str = ".ciel/data"`, as path components. -/
def CIEL_DATA_DIR : List String := [".ciel", "data"]

/-- Embeds `SKELETON_DIRS: &[&str] = &[CIEL_DIST_DIR, CIEL_INST_DIR, CIEL_DATA_DIR]` -/
def SKELETON_DIRS : List (List String) := [CIEL_DIST_DIR, CIEL_INST_DIR, CIEL_DATA_DIR]

/-- Embeds `CIEL_MAINLINE_ARCHS: &[&str]` -/
def CIEL_MAINLINE_ARCHS : List String :=
  ["amd64", "arm64", "ppc64el", "mips64r6el", "riscv64"]

/-- Embeds `CIEL_RETRO_ARCHS: &[&str]` -/
def CIEL_RETRO_ARCHS : List String :=
  ["armv4", "armv6hf", "armv7hf", "i486", "m68k", "powerpc"]

/-- Embeds `check_arch_name(arch) = CIEL_MAINLINE_ARCHS.contains(&arch) || CIEL_RETRO_ARCHS.contains(&arch)` -/
def check_arch_name (arch : String) : Bool :=
  CIEL_MAINLINE_ARCHS.contains arch || CIEL_RETRO_ARCHS.contains arch

/-- Embeds `get_host_arch_name()` (the `cfg(not(powerpc64), not(mips64r6))` variant):
the AOSC OS architecture mapping table, with `std::env::consts::ARCH`
made an explicit argument. -/
def get_host_arch_name (arch : String) : Except String String :=
  match arch with
  | "x86_64" => .ok ("amd64")
  | "x86" => .ok ("i486")
  | "powerpc" => .ok ("powerpc")
  | "aarch64" => .ok ("arm64")
  | "mips64" => .ok ("loongson3")
  | "riscv64" => .ok ("riscv64")
  | _ => .error ("Current host architecture " ++ arch ++ " is not supported by Ciel.")

/-! Linux `prctl` endianness constants, from `<linux/prctl.h>` via `libc`. -/

/-- Embeds `libc::PR_ENDIAN_BIG` -/
def PR_ENDIAN_BIG : Int := 0

/-- Embeds `libc::PR_ENDIAN_LITTLE` -/
def PR_ENDIAN_LITTLE : Int := 1

/-- Embeds `libc::PR_ENDIAN_PPC_LITTLE` -/
def PR_ENDIAN_PPC_LITTLE : Int := 2

/-- Embeds `get_arch_name()` (the `cfg(target_arch = "powerpc64")` variant).
The `libc::prctl(PR_GET_ENDIAN, &mut endian)` call is modelled by its two
outputs: `result` (the return value of the syscall) and `endian` (the
value stored through the pointer). -/
def get_arch_name (result : Int) (endian : Int) : Option String :=
  if result < 0 then
    none
  else
    if endian = PR_ENDIAN_LITTLE ∨ endian = PR_ENDIAN_PPC_LITTLE then
      some ("ppc64el")
    else if endian = PR_ENDIAN_BIG then
      some ("ppc64")
    else
      none

/-- Embeds `get_arch_name()` (the `cfg(feature = "mips64r6")` variant). -/
def get_arch_name_mips64r6 : Option String := some ("mips64r6el")

/-- Embeds `is_legacy_workspace()`.  The workspace stamp file `.ciel/version` is
modelled by its content: `none` when the file is missing (so
`File::open` fails), `some bytes` otherwise.  The code reads exactly one
byte with `read_exact` (failing with `UnexpectedEof` on an empty file)
and compares it with the first byte of `CURRENT_CIEL_VERSION_STR`,
i.e. the byte 51 = ASCII '3'. -/
def is_legacy_workspace (content : Option (List Nat)) : Except String Bool :=
  match content with
  | none => .error ("No such file or directory")
  | some bytes =>
    match bytes with
    | [] => .error ("failed to fill whole buffer")
    | b :: _ => .ok (b < 51)

/-- Bytes of an ASCII stamp string. -/
def stampBytes (s : String) : List Nat :=
  s.toList.map Char.toNat

/-- Outcome of a call that may panic (`unwrap` on `Err`/`None`, or an
out-of-bounds `Vec` index). -/
inductive PanicOr (α : Type) where
  | panicked : PanicOr α
  | value : α → PanicOr α
deriving DecidableEq, Repr

/-- Embeds `ask_for_target_arch()`.  External collaborators are explicit inputs:
`hostRes` is the value of `get_host_arch_name()` (on the host in
question), `attended` is `console::user_attended()`, and `selectRes` is
the `interact()` result of the `FuzzySelect` dialog.  `unwrap()` on a
`Result::Err` or `Option::None`, and indexing `all_archs` out of
bounds, are modelled as `PanicOr.panicked`. -/
def ask_for_target_arch (hostRes : Except String String) (attended : Bool)
    (selectRes : Except String Nat) : PanicOr (Option String) :=
  match hostRes with
  | .error _ => .panicked
  | .ok host_arch =>
    if !attended then
      .value (some host_arch)
    else
      let all_archs := CIEL_MAINLINE_ARCHS ++ CIEL_RETRO_ARCHS
      match all_archs.findIdx? (fun a => a == host_arch) with
      | none => .panicked
      | some _default_arch_index =>
        let chosen_index := match selectRes with
          | .ok i => i
          | .error _ => 0
        match all_archs.get? chosen_index with
        | none => .panicked
        | some a => .value (some a)

/-! ### Filesystem model for `find_ciel_dir` -/

/-- A filesystem for `find_ciel_dir`: the set of existing directories,
as resolved absolute paths (component lists, root = `[]`), and a device
id for each directory.  A symbolic path (possibly containing `".."`
components, as produced by `Path::join("..")`) exists iff its resolution
is in `dirs`. -/
structure FS where
  dirs : List (List String)
  dev : List String → Nat

/-- One step of POSIX path resolution: `".."` moves to the parent, and
the parent of the root is the root itself. -/
def resolveStep (acc : List String) (comp : String) : List String :=
  if comp = ".." then acc.dropLast else acc ++ [comp]

/-- Resolve a symbolic path to the existing-directory name space. -/
def resolve (p : List String) : List String :=
  p.foldl resolveStep []

/-- The loop of `find_ciel_dir`, with explicit fuel.  `none` means the
loop has not produced any outcome within `fuel` iterations; the code
itself has no such bound.  `current_dir` is symbolic: the code keeps
joining `".."` onto it, and each existence / metadata / marker test goes
through path resolution as the OS would. -/
def find_ciel_dir_loop (fs : FS) (start_dev : Nat) :
    List String → Nat → Option (Except String (List String))
  | _, 0 => none
  | current_dir, fuel + 1 =>
    if resolve current_dir ∉ fs.dirs then
      some (.error ("Hit filesystem ceiling!"))
    else if fs.dev (resolve current_dir) ≠ start_dev then
      some (.error ("Hit filesystem boundary!"))
    else if resolve (current_dir ++ [".ciel"]) ∈ fs.dirs then
      some (.ok current_dir)
    else
      find_ciel_dir_loop fs start_dev (current_dir ++ [".."]) fuel

/-- Embeds `find_ciel_dir(start)`: first `fs::metadata(start)?` obtains the
starting device, then the ascent loop runs. -/
def find_ciel_dir (fs : FS) (start : List String) (fuel : Nat) :
    Option (Except String (List String)) :=
  if resolve start ∉ fs.dirs then
    some (.error ("No such file or directory"))
  else
    find_ciel_dir_loop fs (fs.dev (resolve start)) start fuel

/-- A single-device filesystem containing only the root directory and no
`.ciel` marker anywhere. -/
def fsRootOnly : FS := { dirs := [[]], dev := fun _ => 0 }

/-! ### `extract_system_tarball` -/

/-- Embeds `extract_system_tarball(path, total)`, with each fallible external
operation an explicit input: `openRes` is `File::open(path)`,
`dist_dir_exists` is `dist_dir.exists()`, `removeRes` is
`fs::remove_dir_all(&dist_dir)`, `createRes` is
`fs::create_dir_all(&dist_dir)`, and `unpackRes` is
`extract_tar_xz(reader, &dist_dir)`.  The `.ok()` on the removal
discards its error; `?` on open, create and unpack propagates theirs.
Progress-bar calls are cosmetic and carry no data. -/
def extract_system_tarball (openRes : Except String Unit) (dist_dir_exists : Bool)
    (removeRes : Except String Unit) (createRes : Except String Unit)
    (unpackRes : Except String Unit) : Except String Unit :=
  match openRes with
  | .error e => .error e
  | .ok _ =>
    if dist_dir_exists then
      let _removed := removeRes.toOption
      match createRes with
      | .error e => .error e
      | .ok _ => unpackRes
    else
      unpackRes

/-! ### `ciel_init` -/

/-- A filesystem for `ciel_init`: the set of existing directories and
the contents of regular files, both keyed by path components relative to
the working directory. -/
@[ext]
structure InitFS where
  dirs : Finset (List String)
  files : List String → Option String

/-- The nonempty prefixes of a path: the directory itself together with
every intermediate segment that `fs::create_dir_all` creates. -/
def pathPrefixes (p : List String) : List (List String) :=
  (List.range p.length).map (fun i => p.take (i + 1))

/-- Embeds `fs::create_dir_all(dir)`: creates the directory and all missing
intermediate components; directories that already exist are not an
error (the operation is idempotent). -/
def create_dir_all (fs : InitFS) (dir : List String) : InitFS :=
  { fs with dirs := fs.dirs ∪ (pathPrefixes dir).toFinset }

/-- Embeds `.ciel/version` as path components. -/
def CIEL_VERSION_FILE : List String := [".ciel", "version"]

/-- Embeds `ciel_init()`: `fs::create_dir_all` on each of `SKELETON_DIRS`, then
`File::create(".ciel/version")` (which truncates any existing file)
followed by `write_all(CURRENT_CIEL_VERSION_STR.as_bytes())`. -/
def ciel_init (fs : InitFS) : InitFS :=
  let fs1 := SKELETON_DIRS.foldl create_dir_all fs
  { fs1 with
    files := fun p =>
      if p = CIEL_VERSION_FILE then some CURRENT_CIEL_VERSION_STR else fs1.files p }

/-- A fresh empty directory. -/
def emptyFS : InitFS := { dirs := ∅, files := fun _ => none }

/-! ### `sha256sum`

The hash itself lives in the external `sha2` crate; it is embedded here
concretely as SHA-256 per FIPS 180-4, over byte lists, with 32-bit
words as `Nat` reduced `% 2^32`.  The repository code streams the
reader into the hasher with `std::io::copy` and prints the digest with
`format!("{:x}", ...)` (lowercase hexadecimal). -/

/-- Embeds `2^32`, the word modulus. -/
def w32 : Nat := 4294967296

/-- Rotate a 32-bit word right by `n`. -/
def rotr32 (x n : Nat) : Nat := ((x >>> n) ||| (x <<< (32 - n))) % w32

/-- FIPS 180-4 `Ch(x, y, z)`. -/
def ch32 (x y z : Nat) : Nat := (x &&& y) ^^^ ((x ^^^ 4294967295) &&& z)

/-- FIPS 180-4 `Maj(x, y, z)`. -/
def maj32 (x y z : Nat) : Nat := (x &&& y) ^^^ (x &&& z) ^^^ (y &&& z)

/-- FIPS 180-4 `Σ₀`. -/
def bigSigma0 (x : Nat) : Nat := rotr32 x 2 ^^^ rotr32 x 13 ^^^ rotr32 x 22

/-- FIPS 180-4 `Σ₁`. -/
def bigSigma1 (x : Nat) : Nat := rotr32 x 6 ^^^ rotr32 x 11 ^^^ rotr32 x 25

/-- FIPS 180-4 `σ₀`. -/
def smallSigma0 (x : Nat) : Nat := rotr32 x 7 ^^^ rotr32 x 18 ^^^ (x >>> 3)

/-- FIPS 180-4 `σ₁`. -/
def smallSigma1 (x : Nat) : Nat := rotr32 x 17 ^^^ rotr32 x 19 ^^^ (x >>> 10)

/-- The 64 SHA-256 round constants, in decimal. -/
def K256 : List Nat :=
  [1116352408, 1899447441, 3049323471, 3921009573, 961987163,
   1508970993, 2453635748, 2870763221, 3624381080, 310598401,
   607225278, 1426881987, 1925078388, 2162078206, 2614888103,
   3248222580, 3835390401, 4022224774, 264347078, 604807628,
   770255983, 1249150122, 1555081692, 1996064986, 2554220882,
   2821834349, 2952996808, 3210313671, 3336571891, 3584528711,
   113926993, 338241895, 666307205, 773529912, 1294757372,
   1396182291, 1695183700, 1986661051, 2177026350, 2456956037,
   2730485921, 2820302411, 3259730800, 3345764771, 3516065817,
   3600352804, 4094571909, 275423344, 430227734, 506948616,
   659060556, 883997877, 958139571, 1322822218, 1537002063,
   1747873779, 1955562222, 2024104815, 2227730452, 2361852424,
   2428436474, 2756734187, 3204031479, 3329325298]

/-- The SHA-256 initial hash value, in decimal. -/
def H256init : List Nat :=
  [1779033703, 3144134277, 1013904242, 2773480762,
   1359893119, 2600822924, 528734635, 1541459225]

/-- Embeds `n` bytes of `x`, big-endian. -/
def toBytesBE (n : Nat) (x : Nat) : List Nat :=
  match n with
  | 0 => []
  | k + 1 => toBytesBE k (x / 256) ++ [x % 256]

/-- Group bytes into big-endian 32-bit words. -/
def bytesToWords : List Nat → List Nat
  | a :: b :: c :: d :: rest =>
    (((a * 256 + b) * 256 + c) * 256 + d) :: bytesToWords rest
  | _ => []

/-- FIPS 180-4 padding: append `0x80`, zero bytes up to 56 mod 64, and
the 64-bit big-endian bit length. -/
def padMessage (msg : List Nat) : List Nat :=
  let padZeros := (120 - (msg.length + 1) % 64) % 64
  msg ++ [0x80] ++ List.replicate padZeros 0 ++ toBytesBE 8 (8 * msg.length)

/-- Extend the 16 words of a block to the 64-entry message schedule. -/
def extendSchedule (w : Array Nat) : Array Nat :=
  (List.range 48).foldl
    (fun w _ =>
      let t := w.size
      w.push ((w.getD (t - 16) 0 + smallSigma0 (w.getD (t - 15) 0) +
        w.getD (t - 7) 0 + smallSigma1 (w.getD (t - 2) 0)) % w32))
    w

/-- The SHA-256 compression function on one 64-byte block. -/
def compressBlock (h : List Nat) (block : List Nat) : List Nat :=
  let w := extendSchedule (bytesToWords block).toArray
  let st0 : Nat × Nat × Nat × Nat × Nat × Nat × Nat × Nat :=
    (h.getD 0 0, h.getD 1 0, h.getD 2 0, h.getD 3 0,
     h.getD 4 0, h.getD 5 0, h.getD 6 0, h.getD 7 0)
  let stFinal := (List.range 64).foldl
    (fun st t =>
      let (a, b, c, d, e, f, g, hw) := st
      let temp1 := (hw + bigSigma1 e + ch32 e f g + K256.getD t 0 + w.getD t 0) % w32
      let temp2 := (bigSigma0 a + maj32 a b c) % w32
      ((temp1 + temp2) % w32, a, b, c, (d + temp1) % w32, e, f, g))
    st0
  let (a, b, c, d, e, f, g, hw) := stFinal
  [(h.getD 0 0 + a) % w32, (h.getD 1 0 + b) % w32, (h.getD 2 0 + c) % w32,
   (h.getD 3 0 + d) % w32, (h.getD 4 0 + e) % w32, (h.getD 5 0 + f) % w32,
   (h.getD 6 0 + g) % w32, (h.getD 7 0 + hw) % w32]

/-- Split the padded message into 64-byte blocks. -/
def toBlocks : List Nat → List (List Nat)
  | [] => []
  | a :: rest => (a :: rest).take 64 :: toBlocks ((a :: rest).drop 64)
termination_by l => l.length
decreasing_by
  simp only [List.length_drop, List.length_cons]
  omega

/-- SHA-256 of a byte sequence, as eight 32-bit words. -/
def sha256 (msg : List Nat) : List Nat :=
  (toBlocks (padMessage msg)).foldl compressBlock H256init

/-- A lowercase hexadecimal digit. -/
def hexDigit (n : Nat) : Char :=
  if n < 10 then Char.ofNat (48 + n) else Char.ofNat (87 + n)

/-- Two lowercase hexadecimal digits of one byte. -/
def byteToHex (b : Nat) : List Char := [hexDigit (b / 16), hexDigit (b % 16)]

/-- Embeds `format!("{:x}", hasher.finalize())`: the 32 digest bytes, each as
two lowercase hexadecimal digits. -/
def digestToHex (words : List Nat) : String :=
  String.mk (((words.map (toBytesBE 4)).flatten.map byteToHex).flatten)

/-- Embeds `Sha256::update` (via the hasher's `Write` impl): semantically,
accumulation of the bytes fed so far. -/
def hasherUpdate (state : List Nat) (chunk : List Nat) : List Nat := state ++ chunk

/-- Embeds `sha256sum(reader)`: `std::io::copy(&mut reader, &mut hasher)`
feeds the reader's bytes to the hasher in whatever chunks the reader
delivers them (modelled as an explicit chunk list), then the finalized
digest is formatted as lowercase hexadecimal. -/
def sha256sum (chunks : List (List Nat)) : String :=
  digestToHex (sha256 (chunks.foldl hasherUpdate []))

end Ciel

namespace Ciel

/-- C4: `check_arch_name` returns `true` exactly on the eleven tags of
`mainline ∪ retro` — amd64, arm64, ppc64el, mips64r6el, riscv64, armv4,
armv6hf, armv7hf, i486, m68k, powerpc — and `false` on every other
string, in particular on "sparc64"; matching is exact and case-sensitive
(e.g. "AMD64" is rejected). -/
theorem check_arch_name_characterization :
    (∀ s : String, check_arch_name s = true ↔
      (s = "amd64" ∨ s = "arm64" ∨ s = "ppc64el" ∨ s = "mips64r6el" ∨ s = "riscv64" ∨
       s = "armv4" ∨ s = "armv6hf" ∨ s = "armv7hf" ∨ s = "i486" ∨ s = "m68k" ∨
       s = "powerpc")) ∧
    check_arch_name ("sparc64") = false ∧ check_arch_name ("AMD64") = false := by
  refine ⟨?_, by decide, by decide⟩
  intro s
  simp [check_arch_name, CIEL_MAINLINE_ARCHS, CIEL_RETRO_ARCHS, List.contains,
    List.elem_iff, or_assoc]

/-- C3 (counterexample to the invariant): on a `mips64` host the mapping
table succeeds with the tag "loongson3", which `check_arch_name` rejects
(it is in neither the mainline nor the retro set), so host detection can
return a tag outside the supported sets instead of failing. -/
theorem get_host_arch_name_mips64_unsupported :
    get_host_arch_name ("mips64") = .ok ("loongson3") ∧
    check_arch_name ("loongson3") = false := by
  constructor
  · rfl
  · decide

/-- C9: on the 64-bit PowerPC family, detection maps a little-endian
`prctl` answer (either `PR_ENDIAN_LITTLE` or `PR_ENDIAN_PPC_LITTLE`) to
"ppc64el" and a big-endian answer to the distinct tag "ppc64"; a failed
syscall (negative return) or an unrecognized endianness code yields
`none` rather than either tag. -/
theorem get_arch_name_ppc64_endianness :
    get_arch_name 0 PR_ENDIAN_LITTLE = some ("ppc64el") ∧
    get_arch_name 0 PR_ENDIAN_PPC_LITTLE = some ("ppc64el") ∧
    get_arch_name 0 PR_ENDIAN_BIG = some ("ppc64") ∧
    (("ppc64" : String) == "ppc64el") = false ∧
    (∀ endian : Int, get_arch_name (-1) endian = none) ∧
    get_arch_name 0 7 = none := by
  refine ⟨by decide, by decide, by decide, by decide, ?_, by decide⟩
  intro endian
  simp [get_arch_name]

/-- Resolving one appended component is one resolution step. -/
theorem resolve_append_one (p : List String) (c : String) :
    resolve (p ++ [c]) = resolveStep (resolve p) c := by
  simp [resolve, List.foldl_append]

/-- On the marker-free single-device root-only filesystem, the ascent
loop never produces an outcome from any symbolic path resolving to the
root, however much fuel it is given. -/
theorem find_ciel_dir_loop_root_none :
    ∀ (fuel : Nat) (cur : List String), resolve cur = [] →
      find_ciel_dir_loop fsRootOnly 0 cur fuel = none := by
  intro fuel
  induction fuel with
  | zero => intro cur _; rfl
  | succ n ih =>
    intro cur h
    have h1 : resolve (cur ++ [".ciel"]) = [".ciel"] := by
      rw [resolve_append_one, h]; rfl
    have h2 : resolve (cur ++ [".."]) = [] := by
      rw [resolve_append_one, h]; rfl
    simp only [find_ciel_dir_loop]
    simp [h, h1, fsRootOnly]
    exact ih _ h2

/-- C2 (divergence of the code from the claim): started at the root of a
single-device filesystem with no `.ciel` marker anywhere, the locator
reaches no outcome — neither a result nor a ceiling/boundary error — in
any number of iterations: each pass joins `".."`, and the parent of the
root resolves to the root again, so the loop never terminates. -/
theorem find_ciel_dir_no_marker_loops_forever :
    ∀ fuel : Nat, find_ciel_dir fsRootOnly [] fuel = none := by
  intro fuel
  have h0 : resolve ([] : List String) = [] := rfl
  simp only [find_ciel_dir, h0]
  simp only [fsRootOnly, List.mem_singleton, not_true_eq_false, if_false]
  exact find_ciel_dir_loop_root_none fuel [] rfl

/-- C5: in `extract_system_tarball`, when the base-image directory
exists, the outcome is independent of whether its best-effort removal
succeeded or failed (the removal error is swallowed); a failure of the
subsequent directory re-creation is surfaced verbatim to the caller (and
unpacking is not consulted); and once re-creation succeeds the outcome
is exactly that of unpacking the archive. -/
theorem extract_system_tarball_error_flow :
    (∀ (r r' c u : Except String Unit),
      extract_system_tarball (.ok ()) true r c u =
        extract_system_tarball (.ok ()) true r' c u) ∧
    (∀ (r : Except String Unit) (e : String) (u : Except String Unit),
      extract_system_tarball (.ok ()) true r (.error e) u = .error e) ∧
    (∀ (r u : Except String Unit),
      extract_system_tarball (.ok ()) true r (.ok ()) u = u) := by
  refine ⟨?_, ?_, ?_⟩
  · intro r r' c u
    cases c <;> rfl
  · intro r e u
    rfl
  · intro r u
    rfl

/-- C6: on a fresh empty directory, `ciel_init` creates exactly the
three skeleton subdirectories (together with their intermediate
segments `.ciel` and `.ciel/container`) and a version stamp file
`.ciel/version` containing exactly the ASCII string "3", and nothing
else; re-running it on the resulting state succeeds and leaves the
filesystem unchanged. -/
theorem ciel_init_fresh_and_idempotent :
    (ciel_init emptyFS).dirs =
      {[".ciel"], [".ciel", "container"], [".ciel", "container", "dist"],
       [".ciel", "container", "instances"], [".ciel", "data"]} ∧
    (∀ p : List String,
      (ciel_init emptyFS).files p =
        if p = [".ciel", "version"] then some ("3") else none) ∧
    ciel_init (ciel_init emptyFS) = ciel_init emptyFS := by
  refine ⟨by decide, ?_, ?_⟩
  · intro p
    rfl
  · apply InitFS.ext
    · decide
    · funext p
      show (if p = CIEL_VERSION_FILE then some CURRENT_CIEL_VERSION_STR else
        (SKELETON_DIRS.foldl create_dir_all (ciel_init emptyFS)).files p) = _
      by_cases h : p = CIEL_VERSION_FILE <;>
        simp [h, ciel_init, create_dir_all, SKELETON_DIRS, emptyFS]

/-- C1 (divergence of the code from the claim): the version check
compares only the first byte of the stamp against ASCII '3', so while
"2" is classified legacy and "3" current as claimed, the stamp "10" is
classified legacy (`.ok true`, since '1' = 49 < 51 = '3') although the
claim requires it to be current. -/
theorem is_legacy_workspace_first_byte_divergence :
    is_legacy_workspace (some (stampBytes ("2"))) = .ok true ∧
    is_legacy_workspace (some (stampBytes ("3"))) = .ok false ∧
    is_legacy_workspace (some (stampBytes ("10"))) = .ok true := by
  refine ⟨?_, ?_, ?_⟩ <;> rfl

/-- C7: the version check fails with an I/O error — and returns no
legacy/current classification — both when the stamp file is missing
(`File::open` fails) and when it is empty (`read_exact` of one byte
fails with `UnexpectedEof`). -/
theorem is_legacy_workspace_missing_or_empty_errors :
    is_legacy_workspace none = .error ("No such file or directory") ∧
    is_legacy_workspace (some []) = .error ("failed to fill whole buffer") :=
  ⟨rfl, rfl⟩

/-- Streaming the chunks into the hasher accumulates exactly their
concatenation. -/
theorem foldl_hasherUpdate (chunks : List (List Nat)) :
    ∀ acc : List Nat, chunks.foldl hasherUpdate acc = acc ++ chunks.flatten := by
  induction chunks with
  | nil => intro acc; simp [List.flatten]
  | cons c cs ih =>
    intro acc
    simp [hasherUpdate, ih, List.flatten, List.append_assoc]

/-- C8: `sha256sum` is deterministic — a pure function of the byte
sequence carried by the source: any two readers delivering identical
byte sequences, however differently chunked, produce identical digest
strings. -/
theorem sha256sum_deterministic (c1 c2 : List (List Nat))
    (h : c1.flatten = c2.flatten) : sha256sum c1 = sha256sum c2 := by
  unfold sha256sum
  rw [foldl_hasherUpdate c1 [], foldl_hasherUpdate c2 [], h]

/-- Witness for `sha256sum_deterministic`: the byte sequence `1, 2, 3`
delivered in chunks `[1], [2, 3]` and in chunks `[1, 2], [3]`. -/
theorem sha256sum_deterministic_witness :
    ([[1], [2, 3]] : List (List Nat)).flatten = ([[1, 2], [3]] : List (List Nat)).flatten ∧
    sha256sum [[1], [2, 3]] = sha256sum [[1, 2], [3]] :=
  ⟨by decide, sha256sum_deterministic _ _ (by decide)⟩

/-- C10: `ask_for_target_arch` panics (rather than returning `None` or
an error) in two cases: whenever host-architecture detection fails, the
`unwrap()` on its result panics regardless of terminal attachment or
selector behaviour; and when a terminal is attached on a `mips64` host,
whose detected tag "loongson3" is absent from the combined
mainline++retro list, the `position(...).unwrap()` panics regardless of
the selector's answer. -/
theorem ask_for_target_arch_panics :
    (∀ (e : String) (attended : Bool) (sel : Except String Nat),
      ask_for_target_arch (.error e) attended sel = .panicked) ∧
    (∀ sel : Except String Nat,
      ask_for_target_arch (get_host_arch_name ("mips64")) true sel = .panicked) := by
  constructor
  · intro e attended sel
    rfl
  · intro sel
    rfl

end Ciel
